import Mathlib

/-!
Shallow embedding of the Dahlia HTTP service scaffold (Go) and proofs about it.

Embedded components:
- internal/config/config.go : environment-variable configuration resolution
- pkg/logger (logger.go)    : leveled logger with a shared output destination
- internal/api/routes.go    : route table and pure request handlers
- cmd/server/main.go        : service lifecycle (bind, serve, signal, drain, exit)

Machine integers of Go (the type int, 64-bit) are modelled as Int with the
explicit int64 range check where the Go library performs one. Environment
state is modelled as a total function from variable names to values, with the
empty string standing for an absent variable (os.Getenv returns the empty
string for absent variables, so Go code cannot distinguish the two either).
-/

/-! ### internal/config/config.go -/

/-- Decimal digit value of a character, as strconv recognises digits for
base 10: only the ASCII characters 0 through 9. -/
def digitVal (c : Char) : Option Nat :=
  if '0' ≤ c ∧ c ≤ '9' then some (c.toNat - '0'.toNat) else none

/-- Accumulating decimal parse of a digit list; none on any non-digit. -/
def parseDigitsAux : List Char → Nat → Option Nat
  | [], acc => some acc
  | c :: cs, acc =>
    match digitVal c with
    | some d => parseDigitsAux cs (acc * 10 + d)
    | none => none

/-- Decimal parse of a nonempty digit list; none when empty or on any
non-digit (strconv.ParseInt with base 10 accepts no underscores). -/
def parseDigits (l : List Char) : Option Nat :=
  match l with
  | [] => none
  | _ => parseDigitsAux l 0

/-- Largest value of the Go type int64. -/
def int64Max : Int := 9223372036854775807

/-- Smallest value of the Go type int64. -/
def int64Min : Int := -9223372036854775808

/-- Model of Go strconv.Atoi: an optional single + or - sign followed by a
nonempty run of ASCII decimal digits, with the result required to fit in
int64 (out-of-range input makes Atoi return a non-nil error, which the
caller in config.go treats the same as a parse failure). Returns none
exactly when Atoi returns a non-nil error. -/
def goAtoi (s : String) : Option Int :=
  match s.data with
  | [] => none
  | c :: cs =>
    let signDigits : Bool × List Char :=
      if c = '-' then (true, cs)
      else if c = '+' then (false, cs)
      else (false, c :: cs)
    match parseDigits signDigits.2 with
    | some n =>
      let v : Int := if signDigits.1 then -(n : Int) else (n : Int)
      if int64Min ≤ v ∧ v ≤ int64Max then some v else none
    | none => none

/-- Configuration record of config.go. Fields in declaration order:
Port, Host, Environment, LogLevel, DatabaseURL, RedisURL, JWTSecret. -/
structure Config where
  Port : Int
  Host : String
  Environment : String
  LogLevel : String
  DatabaseURL : String
  RedisURL : String
  JWTSecret : String
deriving DecidableEq

/-- getEnv of config.go: the value of the variable when it is nonempty,
otherwise the given default. -/
def getEnv (env : String → String) (key defaultValue : String) : String :=
  if env key ≠ "" then env key else defaultValue

/-- Load of config.go. The port starts at 8080 and is overwritten by the
Atoi result whenever PORT is nonempty and Atoi reports no error; every
other field goes through getEnv with its fixed default. -/
def Load (env : String → String) : Config :=
  let port : Int :=
    if env "PORT" ≠ "" then
      match goAtoi (env "PORT") with
      | some parsed => parsed
      | none => 8080
    else 8080
  ⟨port,
   getEnv env "HOST" "0.0.0.0",
   getEnv env "ENV" "development",
   getEnv env "LOG_LEVEL" "info",
   getEnv env "DATABASE_URL" "postgres://localhost/dahlia?sslmode=disable",
   getEnv env "REDIS_URL" "redis://localhost:6379/0",
   getEnv env "JWT_SECRET" "your-secret-key-change-in-production"⟩

/-- Environment with PORT set to the decimal string -1 and all other
variables absent. -/
def envPortNeg : String → String :=
  fun k => if k = "PORT" then "-1" else ""

/-- Helper: the resolved port is the Atoi result of PORT when Atoi reports
no error, and 8080 otherwise (the absent case is the empty string, which
Atoi rejects). -/
theorem load_port_eq (env : String → String) :
    (Load env).Port =
      (match goAtoi (env "PORT") with
       | some n => n
       | none => (8080 : Int)) := by
  by_cases hp : env "PORT" = ""
  · rw [hp]
    simp [Load, hp, show goAtoi "" = none from rfl]
  · cases hg : goAtoi (env "PORT") with
    | none => simp [Load, hp, hg]
    | some n => simp [Load, hp, hg]

/-- C5: for every PORT environment value that Atoi parses as an integer,
the resolved port equals that integer; for every non-numeric or absent
value (Atoi error, which includes the absent case because the empty string
fails to parse), the resolved port equals 8080. -/
theorem load_port_resolution (env : String → String) :
    (Load env).Port =
      (match goAtoi (env "PORT") with
       | some n => n
       | none => (8080 : Int)) :=
  load_port_eq env

/-- C2 counterexample: with PORT set to the string -1, an integer value that
is not a positive integer, Load keeps -1 as the resolved port instead of
substituting the default 8080, refuting the claim that negative or zero
integer values are replaced by the default. -/
theorem load_port_negative_not_replaced :
    (Load envPortNeg).Port = -1 ∧ (Load envPortNeg).Port ≠ 8080 := by
  decide

/-- C2 (amended): for every PORT value that is absent or that Atoi fails to
parse as an integer, Load resolves the port to the fixed default 8080; but a
value that parses as a negative or zero integer is kept as the resolved port
and is not replaced by the default. -/
theorem load_port_nonpositive_kept (env : String → String) (n : Int)
    (hn : goAtoi (env "PORT") = some n) (hnp : n ≤ 0) :
    (Load env).Port = n ∧ (Load env).Port ≠ 8080 ∧
    (∀ env2 : String → String,
      goAtoi (env2 "PORT") = none → (Load env2).Port = 8080) := by
  refine ⟨?_, ?_, ?_⟩
  · rw [load_port_eq, hn]
  · rw [load_port_eq, hn]
    show n ≠ 8080
    omega
  · intro env2 h2
    rw [load_port_eq, h2]

/-- Witness for C2 (amended) at the concrete environment PORT set to -1. -/
theorem load_port_nonpositive_kept_witness :
    (Load envPortNeg).Port = -1 ∧ (Load envPortNeg).Port ≠ 8080 ∧
    (∀ env2 : String → String,
      goAtoi (env2 "PORT") = none → (Load env2).Port = 8080) :=
  load_port_nonpositive_kept envPortNeg (-1) (by decide) (by decide)

/-! ### pkg/logger (logger.go) -/

/-- LogLevel of logger.go: DEBUG, INFO, ERROR are declared by iota in that
order, so numerically DEBUG = 0, INFO = 1, ERROR = 2. -/
inductive LogLevel
  | DEBUG
  | INFO
  | ERROR
deriving DecidableEq

/-- Numeric value of a LogLevel, following the Go iota declaration. -/
def LogLevel.toNat : LogLevel → Nat
  | .DEBUG => 0
  | .INFO => 1
  | .ERROR => 2

/-- Logger of logger.go: it records only the configured level. -/
structure Logger where
  level : LogLevel
deriving DecidableEq

/-- ASCII lowering of one character. Go strings.ToLower lowers the full
Unicode range; over the strings the level switch compares against, the two
lowerings resolve every name to the same level (the only non-ASCII
character whose simple lowering lands in the relevant alphabet is U+0130,
mapping to the letter i, and any name affected by it resolves to INFO
under both lowerings, either by matching the word info or by the default
branch). -/
def asciiToLowerChar (c : Char) : Char :=
  if 'A' ≤ c ∧ c ≤ 'Z' then Char.ofNat (c.toNat + 32) else c

/-- Model of strings.ToLower restricted to ASCII (see asciiToLowerChar). -/
def asciiToLower (s : String) : String :=
  ⟨s.data.map asciiToLowerChar⟩

/-- New of logger.go: switch on the lowering of the requested name; debug,
info and error map to their levels and every other name defaults to INFO
(the Go switch compares the scrutinee against each case in turn). -/
def Logger.New (level : String) : Logger :=
  let s := asciiToLower level
  if s = "debug" then ⟨LogLevel.DEBUG⟩
  else if s = "info" then ⟨LogLevel.INFO⟩
  else if s = "error" then ⟨LogLevel.ERROR⟩
  else ⟨LogLevel.INFO⟩

/-- Output destination of the shared Go log package: standard output,
standard error, or any other writer (abstracted by a label). -/
inductive Dest
  | stdout
  | stderr
  | other (label : String)
deriving DecidableEq

/-- Mutable state of the shared log package: its current destination. -/
structure LogState where
  out : Dest
deriving DecidableEq

/-- log.SetOutput: replaces the shared destination. -/
def setOutput (d : Dest) (_st : LogState) : LogState := ⟨d⟩

/-- log.Printf: emits one line to the current destination; returns the
state unchanged together with the write performed. -/
def logPrintf (msg : String) (st : LogState) : LogState × (Dest × String) :=
  (st, (st.out, msg))

/-- Debug of logger.go: when the configured level is numerically at most
DEBUG, one line goes to the current destination; otherwise nothing. -/
def Logger.Debug (l : Logger) (msg : String) (st : LogState) :
    LogState × List (Dest × String) :=
  if l.level.toNat ≤ LogLevel.DEBUG.toNat then
    let w := logPrintf ("[DEBUG] " ++ msg) st
    (w.1, [w.2])
  else (st, [])

/-- Info of logger.go: when the configured level is numerically at most
INFO, one line goes to the current destination; otherwise nothing. -/
def Logger.Info (l : Logger) (msg : String) (st : LogState) :
    LogState × List (Dest × String) :=
  if l.level.toNat ≤ LogLevel.INFO.toNat then
    let w := logPrintf ("[INFO] " ++ msg) st
    (w.1, [w.2])
  else (st, [])

/-- Error of logger.go: when the configured level is numerically at most
ERROR, the shared destination is set to standard error, one line is
written there, and the destination is then set to standard output. -/
def Logger.Error (l : Logger) (msg : String) (st : LogState) :
    LogState × List (Dest × String) :=
  if l.level.toNat ≤ LogLevel.ERROR.toNat then
    let st1 := setOutput Dest.stderr st
    let w := logPrintf ("[ERROR] " ++ msg) st1
    let st2 := setOutput Dest.stdout w.1
    (st2, [w.2])
  else (st, [])

/-- C3 counterexample: with the shared destination previously standard
error (the default destination of the Go log package), a single Error call
returns with the destination set to standard output, which differs from
the value the destination had immediately before the call. -/
theorem error_emit_not_restoring :
    (((Logger.New "info").Error "boom" ⟨Dest.stderr⟩).1.out = Dest.stdout) ∧
    Dest.stdout ≠ Dest.stderr := by
  decide

/-- C3 (amended): a single Error call writes to the error stream for the
duration of the call, and on return unconditionally sets the shared
destination to standard output; the destination therefore equals its value
immediately before the call exactly when that prior value was already
standard output. -/
theorem error_emit_sets_stdout (l : Logger) (msg : String) (st : LogState)
    (w : Dest × String) (hw : w ∈ (l.Error msg st).2) :
    (l.Error msg st).1.out = Dest.stdout ∧
    w.1 = Dest.stderr ∧
    ((l.Error msg st).1.out = st.out ↔ st.out = Dest.stdout) := by
  obtain ⟨lv⟩ := l
  obtain ⟨dprev⟩ := st
  cases lv <;>
    simp [Logger.Error, setOutput, logPrintf, LogLevel.toNat] at hw ⊢ <;>
    simp [hw, eq_comm]

/-- Witness for C3 (amended): a concrete Error call over a file-like prior
destination. -/
theorem error_emit_sets_stdout_witness :
    ((Logger.New "debug").Error "x" ⟨Dest.other "f"⟩).1.out = Dest.stdout ∧
    (Dest.stderr, "[ERROR] x").1 = Dest.stderr ∧
    (((Logger.New "debug").Error "x" ⟨Dest.other "f"⟩).1.out =
        LogState.out ⟨Dest.other "f"⟩ ↔
      LogState.out ⟨Dest.other "f"⟩ = Dest.stdout) :=
  error_emit_sets_stdout (Logger.New "debug") "x" ⟨Dest.other "f"⟩
    (Dest.stderr, "[ERROR] x") (by decide)

/-- C6: level names resolve case-insensitively (names with equal lowerings
resolve identically; lowerings debug, info and error resolve to DEBUG, INFO
and ERROR; every other name resolves to INFO), and each emit operation
produces output exactly when the configured level is numerically at most
the level of the call, under the ordering DEBUG = 0 < INFO = 1 < ERROR = 2;
in particular Error always produces output. -/
theorem logger_resolution_and_gating
    (name t u d i er msg : String) (st : LogState) (l : Logger)
    (hci : asciiToLower name = asciiToLower t)
    (hu : asciiToLower u ≠ "debug" ∧ asciiToLower u ≠ "info" ∧
      asciiToLower u ≠ "error")
    (hd : asciiToLower d = "debug")
    (hi : asciiToLower i = "info")
    (he : asciiToLower er = "error") :
    Logger.New name = Logger.New t ∧
    (Logger.New u).level = LogLevel.INFO ∧
    (Logger.New d).level = LogLevel.DEBUG ∧
    (Logger.New i).level = LogLevel.INFO ∧
    (Logger.New er).level = LogLevel.ERROR ∧
    ((l.Debug msg st).2 ≠ [] ↔ l.level.toNat ≤ LogLevel.DEBUG.toNat) ∧
    ((l.Info msg st).2 ≠ [] ↔ l.level.toNat ≤ LogLevel.INFO.toNat) ∧
    ((l.Error msg st).2 ≠ [] ↔ l.level.toNat ≤ LogLevel.ERROR.toNat) ∧
    (l.Error msg st).2 ≠ [] := by
  obtain ⟨lv⟩ := l
  refine ⟨?_, ?_, ?_, ?_, ?_, ?_, ?_, ?_, ?_⟩
  · simp only [Logger.New, hci]
  · simp [Logger.New, hu.1, hu.2.1, hu.2.2]
  · simp [Logger.New, hd]
  · simp [Logger.New, hi]
  · simp [Logger.New, he]
  · cases lv <;> simp [Logger.Debug, logPrintf, LogLevel.toNat]
  · cases lv <;> simp [Logger.Info, logPrintf, LogLevel.toNat]
  · cases lv <;> simp [Logger.Error, setOutput, logPrintf, LogLevel.toNat]
  · cases lv <;> simp [Logger.Error, setOutput, logPrintf, LogLevel.toNat]

/-- Witness for C6 at concrete names and a DEBUG-configured logger. -/
theorem logger_resolution_and_gating_witness :
    Logger.New "INFO" = Logger.New "Info" ∧
    (Logger.New "warn").level = LogLevel.INFO ∧
    (Logger.New "DeBuG").level = LogLevel.DEBUG ∧
    (Logger.New "info").level = LogLevel.INFO ∧
    (Logger.New "Error").level = LogLevel.ERROR ∧
    (((Logger.New "DeBuG").Debug "m" ⟨Dest.stdout⟩).2 ≠ [] ↔
      (Logger.New "DeBuG").level.toNat ≤ LogLevel.DEBUG.toNat) ∧
    (((Logger.New "DeBuG").Info "m" ⟨Dest.stdout⟩).2 ≠ [] ↔
      (Logger.New "DeBuG").level.toNat ≤ LogLevel.INFO.toNat) ∧
    (((Logger.New "DeBuG").Error "m" ⟨Dest.stdout⟩).2 ≠ [] ↔
      (Logger.New "DeBuG").level.toNat ≤ LogLevel.ERROR.toNat) ∧
    ((Logger.New "DeBuG").Error "m" ⟨Dest.stdout⟩).2 ≠ [] :=
  logger_resolution_and_gating "INFO" "Info" "warn" "DeBuG" "info" "Error" "m"
    ⟨Dest.stdout⟩ (Logger.New "DeBuG") (by decide) (by decide) (by decide)
    (by decide) (by decide)

/-! ### internal/api/routes.go -/

/-- Handler names bound by SetupRoutes, in source order. -/
inductive Handler
  | healthCheck
  | readinessCheck
  | getStatus
  | getInfo
  | metricsHandler
deriving DecidableEq

/-- One route binding: HTTP method, path and handler. -/
structure Route where
  method : String
  path : String
  handler : Handler
deriving DecidableEq

/-- SetupRoutes of routes.go: two health endpoints, the group /api/v1 with
two endpoints (the group prefixes its relative paths), and the metrics
endpoint, registered in this order. The program calls SetupRoutes exactly
once, before the listener starts, and no code mutates the router
afterwards; the embedding is accordingly a constant list. -/
def SetupRoutes : List Route :=
  let v1 := "/api/v1"
  [⟨"GET", "/health", Handler.healthCheck⟩,
   ⟨"GET", "/ready", Handler.readinessCheck⟩,
   ⟨"GET", v1 ++ "/status", Handler.getStatus⟩,
   ⟨"GET", v1 ++ "/info", Handler.getInfo⟩,
   ⟨"GET", "/metrics", Handler.metricsHandler⟩]

/-- C9: the route table holds exactly five bindings, every one with method
GET, at the five fixed paths in insertion order (the /api/v1 group prefix
applied to its two members). -/
theorem route_table_fixed :
    SetupRoutes.length = 5 ∧
    SetupRoutes.map Route.method = ["GET", "GET", "GET", "GET", "GET"] ∧
    SetupRoutes.map Route.path =
      ["/health", "/ready", "/api/v1/status", "/api/v1/info", "/metrics"] :=
  ⟨rfl, rfl, rfl⟩

/-- Services block of the readiness response body. -/
structure ServicesBody where
  database : String
  redis : String
deriving DecidableEq

/-- Readiness response: HTTP code and the JSON body fields. -/
structure ReadyResponse where
  code : Nat
  status : String
  timestamp : Nat
  services : ServicesBody
deriving DecidableEq

/-- readinessCheck of routes.go: always http.StatusOK (200) with status
ready and both service fields the literal connected. The handler consults
no external dependency: the live database and redis checks are a TODO in
the source, so its only input is the current time for the timestamp. -/
def readinessCheck (now : Nat) : ReadyResponse :=
  ⟨200, "ready", now, ⟨"connected", "connected"⟩⟩

/-- C7: for every request time and every state of the external database
and redis dependencies (the two Bool parameters range over all such
states, which the handler cannot observe), the readiness endpoint returns
HTTP 200 with both service fields equal to the literal connected. -/
theorem readiness_always_connected (now : Nat) (dbUp redisUp : Bool) :
    (readinessCheck now).code = 200 ∧
    (readinessCheck now).services.database = "connected" ∧
    (readinessCheck now).services.redis = "connected" :=
  ⟨rfl, rfl, rfl⟩

/-- time.Since of the package start time, at sampling time now: the
elapsed Duration. Durations are modelled as Int (nanosecond counts). -/
def uptimeAt (startTime now : Int) : Int := now - startTime

/-- Status response: HTTP code and the JSON body fields; the uptime field
carries the Duration value that the handler formats as a string. -/
structure StatusResponse where
  code : Nat
  service : String
  version : String
  uptime : Int
  status : String
deriving DecidableEq

/-- getStatus of routes.go: HTTP 200 with fixed service, version and
status fields and the uptime elapsed since the package-level startTime. -/
def getStatus (startTime now : Int) : StatusResponse :=
  ⟨200, "dahlia", "1.0.0", uptimeAt startTime now, "running"⟩

/-- C8: on one running instance (one fixed startTime captured at process
start), the uptime reported at a later sampling time is at least the
uptime reported at an earlier one. -/
theorem status_uptime_monotone (startTime t1 t2 : Int)
    (h0 : startTime ≤ t1) (h12 : t1 < t2) :
    (getStatus startTime t1).uptime ≤ (getStatus startTime t2).uptime := by
  simp only [getStatus, uptimeAt]
  omega

/-- Witness for C8 at start 0 and sampling times 1 and 2. -/
theorem status_uptime_monotone_witness :
    (getStatus 0 1).uptime ≤ (getStatus 0 2).uptime :=
  status_uptime_monotone 0 1 2 (by decide) (by decide)

/-! ### cmd/server/main.go -/

/-- Addr built in main.go by fmt.Sprintf: a colon followed by the decimal
port (toString on Int prints sign-and-digits exactly as the Go verb does
for an int). The Host field does not occur in the expression. -/
def serverAddr (cfg : Config) : String := ":" ++ toString cfg.Port

/-- A configuration with default host. -/
def cfgA : Config := ⟨8080, "0.0.0.0", "development", "info", "", "", ""⟩

/-- The same configuration except for a different host. -/
def cfgB : Config := ⟨8080, "127.0.0.1", "development", "info", "", "", ""⟩

/-- C10: the listen address is the colon followed by the decimal port and
is determined solely by the port field — two configurations agreeing on
the port yield the same address whatever their other fields — while the
Host field, though resolved by Load from HOST with default 0.0.0.0, never
enters the address. -/
theorem bind_addr_port_only (cfg cfg2 : Config) (env : String → String)
    (hp : cfg.Port = cfg2.Port) :
    serverAddr cfg = ":" ++ toString cfg.Port ∧
    serverAddr cfg = serverAddr cfg2 ∧
    (Load env).Host = (if env "HOST" = "" then "0.0.0.0" else env "HOST") := by
  refine ⟨rfl, ?_, ?_⟩
  · rw [serverAddr, serverAddr, hp]
  · by_cases h : env "HOST" = "" <;> simp [Load, getEnv, h]

/-- Witness for C10: two configurations equal in port, different in host,
and the environment with only PORT set. -/
theorem bind_addr_port_only_witness :
    serverAddr cfgA = ":" ++ toString cfgA.Port ∧
    serverAddr cfgA = serverAddr cfgB ∧
    (Load envPortNeg).Host =
      (if envPortNeg "HOST" = "" then "0.0.0.0" else envPortNeg "HOST") :=
  bind_addr_port_only cfgA cfgB envPortNeg rfl

/-- Phase of the service lifecycle driven by main.go. -/
inductive Phase
  | notStarted
  | serving
  | draining
  | stopped
  | failedShutdown
  | failedBind
deriving DecidableEq

/-- Lifecycle state: the phase together with the time at which the
shutdown timer started on entering the draining phase, when it did. -/
structure LState where
  phase : Phase
  drainStart : Option Nat
deriving DecidableEq

/-- Events observed by main.go: the outcome of the listener bind, a
termination signal (interrupt or terminate, at some time), completion of
the graceful Shutdown call, and expiry of the context deadline. Time is
abstract (Nat units). -/
inductive Event
  | bindOk
  | bindFail
  | signal (t : Nat)
  | drainDone (t : Nat)
  | deadline (t : Nat)
deriving DecidableEq

/-- The shutdown deadline of main.go: context.WithTimeout receives five
time units (5 seconds in the source). -/
def shutdownTimeout : Nat := 5

/-- One step of the lifecycle of main.go. A successful bind starts
serving; a failed bind aborts fatally. The first signal enters draining
and records the timer start (the signal channel is buffered with capacity
one and read exactly once, so any further signal leaves the state
untouched via the final catch-all). Shutdown completing before the timer
expires reaches stopped; the deadline elapsing first reaches failed
shutdown. Terminal states absorb every event. -/
def step (s : LState) (e : Event) : LState :=
  match s, e with
  | ⟨Phase.notStarted, d⟩, Event.bindOk => ⟨Phase.serving, d⟩
  | ⟨Phase.notStarted, d⟩, Event.bindFail => ⟨Phase.failedBind, d⟩
  | ⟨Phase.serving, _⟩, Event.signal t => ⟨Phase.draining, some t⟩
  | ⟨Phase.draining, some t0⟩, Event.drainDone t =>
      if t < t0 + shutdownTimeout then ⟨Phase.stopped, some t0⟩
      else ⟨Phase.draining, some t0⟩
  | ⟨Phase.draining, some t0⟩, Event.deadline t =>
      if t0 + shutdownTimeout ≤ t then ⟨Phase.failedShutdown, some t0⟩
      else ⟨Phase.draining, some t0⟩
  | s, _ => s

/-- Initial lifecycle state of the process. -/
def initState : LState := ⟨Phase.notStarted, none⟩

/-- The lifecycle state after a sequence of events from process start. -/
def run (es : List Event) : LState := es.foldl step initState

/-- Exit status of the process by phase: log.Fatal exits with status 1 on
forced shutdown and on bind failure, and falling off main exits with 0
after stopping cleanly; none while the process still runs. -/
def exitCode : Phase → Option Nat
  | Phase.stopped => some 0
  | Phase.failedShutdown => some 1
  | Phase.failedBind => some 1
  | _ => none

/-- Whether a fatal error is logged on reaching the phase: log.Fatal logs
before exiting on forced shutdown, log.Fatalf on bind failure. -/
def logsFatal : Phase → Bool
  | Phase.failedShutdown => true
  | Phase.failedBind => true
  | _ => false

/-- Phases reachable once the draining phase has begun. -/
def postDrain (p : Phase) : Prop :=
  p = Phase.draining ∨ p = Phase.stopped ∨ p = Phase.failedShutdown

/-- One step preserves the post-draining phases and the timer start. -/
theorem postDrain_step (s : LState) (e : Event) (h : postDrain s.phase) :
    postDrain (step s e).phase ∧ (step s e).drainStart = s.drainStart := by
  obtain ⟨p, d⟩ := s
  cases p <;> cases e <;> cases d <;> simp_all [postDrain, step] <;>
    (split <;> simp [postDrain])

/-- Any event sequence from a post-draining state stays post-draining and
keeps the timer start. -/
theorem postDrain_run (es : List Event) (s : LState) (h : postDrain s.phase) :
    postDrain ((es.foldl step s).phase) ∧
    (es.foldl step s).drainStart = s.drainStart := by
  induction es generalizing s with
  | nil => exact ⟨h, rfl⟩
  | cons e es ih =>
    have h1 := postDrain_step s e h
    have h2 := ih (step s e) h1.1
    exact ⟨h2.1, h2.2.trans h1.2⟩

/-- C4: from any draining state, a further termination signal leaves the
state — phase and shutdown-timer start alike — exactly unchanged (the Go
code reads the buffered signal channel only once), and no sequence of
further events re-enters the serving phase or changes the timer start. -/
theorem second_signal_noop (s : LState) (t : Nat) (es : List Event)
    (h : s.phase = Phase.draining) :
    step s (Event.signal t) = s ∧
    (es.foldl step s).phase ≠ Phase.serving ∧
    (es.foldl step s).drainStart = s.drainStart := by
  have hr := postDrain_run es s (Or.inl h)
  refine ⟨?_, ?_, hr.2⟩
  · obtain ⟨p, d⟩ := s
    simp only at h
    subst h
    cases d <;> rfl
  · rcases hr.1 with h1 | h1 | h1 <;> rw [h1] <;> decide

/-- Witness for C4 at a concrete draining state and event sequence. -/
theorem second_signal_noop_witness :
    step ⟨Phase.draining, some 0⟩ (Event.signal 3) = ⟨Phase.draining, some 0⟩ ∧
    (([Event.signal 4, Event.deadline 9].foldl step
        ⟨Phase.draining, some 0⟩).phase ≠ Phase.serving) ∧
    ([Event.signal 4, Event.deadline 9].foldl step
        ⟨Phase.draining, some 0⟩).drainStart = some 0 :=
  second_signal_noop ⟨Phase.draining, some 0⟩ 3
    [Event.signal 4, Event.deadline 9] rfl

/-- C1: whenever the lifecycle has produced an exit status, that status is
0 exactly when the run reached the stopped phase and non-zero exactly when
it reached failed bind or failed shutdown; reaching failed shutdown logs a
fatal error before exiting; the shutdown deadline is the fixed 5 time
units; and the stopped phase is only ever entered from the draining phase,
so status 0 certifies the draining-to-stopped transition. -/
theorem exit_status_spec (es : List Event) (c : Nat) (s : LState) (e : Event)
    (h : exitCode (run es).phase = some c)
    (hs : (step s e).phase = Phase.stopped) :
    shutdownTimeout = 5 ∧
    (c = 0 ↔ (run es).phase = Phase.stopped) ∧
    (c ≠ 0 ↔ ((run es).phase = Phase.failedBind ∨
      (run es).phase = Phase.failedShutdown)) ∧
    logsFatal Phase.failedShutdown = true ∧
    (s.phase = Phase.stopped ∨ s.phase = Phase.draining) := by
  refine ⟨rfl, ?_, ?_, rfl, ?_⟩
  · cases hp : (run es).phase <;> rw [hp] at h <;> simp_all [exitCode] <;> omega
  · cases hp : (run es).phase <;> rw [hp] at h <;> simp_all [exitCode] <;> omega
  · obtain ⟨p, d⟩ := s
    cases p <;> cases e <;> cases d <;>
      first
        | (simp only [step] at hs; exact absurd hs (by decide))
        | (right; rfl)
        | (left; rfl)

/-- Witness for C1 at a clean shutdown run and a concrete stopping step. -/
theorem exit_status_spec_witness :
    shutdownTimeout = 5 ∧
    ((0 : Nat) = 0 ↔
      (run [Event.bindOk, Event.signal 0, Event.drainDone 2]).phase =
        Phase.stopped) ∧
    ((0 : Nat) ≠ 0 ↔
      ((run [Event.bindOk, Event.signal 0, Event.drainDone 2]).phase =
          Phase.failedBind ∨
        (run [Event.bindOk, Event.signal 0, Event.drainDone 2]).phase =
          Phase.failedShutdown)) ∧
    logsFatal Phase.failedShutdown = true ∧
    (Phase.draining = Phase.stopped ∨ Phase.draining = Phase.draining) :=
  exit_status_spec [Event.bindOk, Event.signal 0, Event.drainDone 2] 0
    ⟨Phase.draining, some 0⟩ (Event.drainDone 2) (by decide) (by decide)
